import Mathlib

set_option maxRecDepth 10000

/-!
Verification of the spectrogram / segmentation core of hvc
(`hvc/audiofileIO.py`), shallowly embedded in Lean 4.

Conventions of the embedding:
* numpy float arrays become `List ℚ` (all arithmetic in the claims is exact
  on dyadic/decimal values, so rationals model the float computations
  faithfully on the inputs considered);
* numpy fancy indexing `xs[idxs]` becomes `selectIdx xs idxs`;
* `np.nonzero(mask)[0]` over a 1-d mask becomes a filtered `List.range`
  (indices in increasing order);
* Python exceptions become `Except PyErr`;
* dynamically-typed optional arguments become `Option` values.
-/

deriving instance DecidableEq for Except

/-- Python exceptions raised by the embedded code.  `windowError` is the
dedicated `WindowError` class defined at the top of `audiofileIO.py`. -/
inductive PyErr where
  | valueError (msg : String)
  | typeError (msg : String)
  | windowError
  deriving DecidableEq, Repr

/-- numpy fancy indexing `xs[idxs]`: pick the elements at the listed
indices, in order.  (numpy raises `IndexError` on an out-of-range index;
this embedding drops such indices instead — every theorem below only uses
it with in-range indices.) -/
def selectIdx {α : Type} (xs : List α) (idxs : List ℕ) : List α :=
  idxs.filterMap (fun i => xs.get? i)

/-- Parameters of `segment_song` (`segment_params` dict). -/
structure SegmentParams where
  threshold : ℚ
  min_syl_dur : ℚ
  min_silent_dur : ℚ
  deriving DecidableEq, Repr

/-- The literal default written in the body of `segment_song`
(`audiofileIO.py` lines 332-335). -/
def defaultSegmentParams : SegmentParams :=
  { threshold := 5000, min_syl_dur := 0.2, min_silent_dur := 0.02 }

/-- `amp > segment_params['threshold']` (elementwise boolean mask). -/
def aboveTh (amp : List ℚ) (th : ℚ) : List Bool :=
  amp.map (fun a => decide (th < a))

/-- interpret a boolean as the 0/1 integer numpy uses in the convolution. -/
def boolToInt (b : Bool) : ℤ := if b then 1 else 0

/-- entry `k` of `np.convolve([1,-1], above_th)`:
`above_th[k] - above_th[k-1]`, out-of-range entries read as 0. -/
def convAt (b : List Bool) (k : ℕ) : ℤ :=
  boolToInt (b.getD k false) - (if k = 0 then 0 else boolToInt (b.getD (k - 1) false))

/-- indices where the convolved mask is `> 0` (rising edges). -/
def onsetIndices (b : List Bool) : List ℕ :=
  (List.range (b.length + 1)).filter (fun k => decide (0 < convAt b k))

/-- indices where the convolved mask is `< 0` (falling edges). -/
def offsetIndices (b : List Bool) : List ℕ :=
  (List.range (b.length + 1)).filter (fun k => decide (convAt b k < 0))

/-- Embedding of `segment_song(amp, time_bins, segment_params)`
(`audiofileIO.py` lines 302-356), including the silent-gap filter exactly
as written in the source: `keep_these` are the indices of the gaps that
are longer than `min_silent_dur`, and the source applies those indices
directly to *both* `onsets` and `offsets`
(`onsets = onsets[keep_these]; offsets = offsets[keep_these]`). -/
def segment_song (amp time_bins : List ℚ) (segment_params : Option SegmentParams) :
    List ℚ × List ℚ :=
  let ps := segment_params.getD defaultSegmentParams
  let b := aboveTh amp ps.threshold
  let onsets := selectIdx time_bins (onsetIndices b)
  let offsets := selectIdx time_bins (offsetIndices b)
  -- silent_gap_durs = onsets[1:] - offsets[:-1]
  let gaps := List.zipWith (fun a b => a - b) onsets.tail offsets.dropLast
  let keep := (List.range gaps.length).filter
    (fun i => decide (ps.min_silent_dur < gaps.getD i 0))
  let onsets := selectIdx onsets keep
  let offsets := selectIdx offsets keep
  -- syl_durs = offsets - onsets
  let durs := List.zipWith (fun a b => a - b) offsets onsets
  let keep2 := (List.range durs.length).filter
    (fun i => decide (ps.min_syl_dur < durs.getD i 0))
  (selectIdx onsets keep2, selectIdx offsets keep2)

/-- the window arrays a `Spectrogram` object can hold: `np.hanning(nperseg)`
or `scipy.signal.slepian(nperseg, 4/nperseg)` (the array contents play no
role in any claim, so they are represented symbolically by their
parameter). -/
inductive WindowArr where
  | hanning (nperseg : ℤ)
  | slepian (nperseg : ℤ)
  deriving DecidableEq, Repr

/-- The attributes a `Spectrogram` object owns after `__init__`.  Python
objects acquire attributes one assignment at a time, so every attribute is
wrapped in an outer `Option`: `none` means the attribute was never
assigned (reading it would raise `AttributeError`).  `freqCutoffs?` and
`filterFunc?` have a second, inner `Option` because the assigned value may
itself be Python `None`.  `warned` records whether `warnings.warn` ran. -/
structure SpectAttrsState where
  nperseg? : Option ℤ := none
  noverlap? : Option ℤ := none
  window? : Option (Option WindowArr) := none
  freqCutoffs? : Option (Option (List ℤ)) := none
  filterFunc? : Option (Option String) := none
  spectFunc? : Option String := none
  logTransformSpect? : Option Bool := none
  ref? : Option String := none
  warned : Bool := false
  deriving DecidableEq, Repr

/-- Embedding of `Spectrogram.__init__` (`audiofileIO.py` lines 22-199).
Arguments keep the source order and defaults; dynamically-typed arguments
become `Option` values (`none` = Python `None`).  The source's
`TypeError` branches for arguments of the wrong Python type are
represented where the `Option` typing can still reach them: in particular
`type(freq_cutoffs) != list` is `True` in Python when `freq_cutoffs` is
`None`, which is the `none` case below. -/
def spectrogramInit (ref : Option String) (nperseg noverlap : Option ℤ)
    (freq_cutoffs : Option (List ℤ)) (window : Option String)
    (filter_func : Option String) (spect_func : Option String)
    (log_transform_spect : Bool) : Except PyErr SpectAttrsState :=
  match ref with
  | some r =>
    -- `if ref not in ('tachibana','koumura'): raise ValueError`
    if ¬ (r = "tachibana" ∨ r = "koumura") then
      .error (.valueError (r ++ " is not a valid value for reference argument"))
    -- `if any(param is not None for param in [nperseg, noverlap,
    --         freq_cutoffs, filter_func, spect_func]): warnings.warn(...)`
    -- note: nothing is assigned on this branch — the preset assignments
    -- are inside the `else`.
    else if nperseg.isSome || noverlap.isSome || freq_cutoffs.isSome ||
        filter_func.isSome || spect_func.isSome then
      .ok { warned := true }
    else if r = "tachibana" then
      .ok { nperseg? := some 256, noverlap? := some 192,
            window? := some (some (.hanning 256)),
            freqCutoffs? := some none, filterFunc? := some (some "diff"),
            spectFunc? := some "mpl", logTransformSpect? := some false,
            ref? := some "tachibana" }
    else
      .ok { nperseg? := some 512, noverlap? := some 480,
            window? := some (some (.slepian 512)),
            freqCutoffs? := some (some [1000, 8000]),
            filterFunc? := some none, spectFunc? := some "scipy",
            logTransformSpect? := some true, ref? := some "koumura" }
  | none =>
    match nperseg with
    | none => .error (.valueError "nperseg requires a value for Spectrogram.__init__")
    | some np_ =>
    match noverlap with
    | none => .error (.valueError "noverlap requires a value for Spectrogram.__init__")
    | some nov =>
    -- `if spect_func is None: spect_func = 'scipy'`
    let sf := spect_func.getD "scipy"
    -- `if window not in ['Hann','dpss',None]: raise ValueError`
    if ¬ (window = some "Hann" ∨ window = some "dpss" ∨ window = none) then
      .error (.valueError "window is not a valid specification for window")
    else
    -- `if type(freq_cutoffs) != list: raise TypeError` — `True` for `None`
    match freq_cutoffs with
    | none => .error (.typeError "type of freq_cutoffs must be list, but is NoneType")
    | some fc =>
    if fc.length ≠ 2 then
      .error (.valueError "freq_cutoffs list should have length 2")
    else
    -- `elif filter_func not in ['diff',None]: raise ValueError`
    if ¬ (filter_func = some "diff" ∨ filter_func = none) then
      .error (.valueError "string is not valid for filter_func")
    else
    if ¬ (sf = "scipy" ∨ sf = "mpl") then
      .error (.valueError "string is not valid for spect_func")
    else
      .ok { nperseg? := some np_, noverlap? := some nov,
            window? := some (match window with
              | some "Hann" => some (.hanning np_)
              | some "dpss" => some (.slepian np_)
              | _ => none),
            freqCutoffs? := some (some fc), filterFunc? := some filter_func,
            spectFunc? := some sf, logTransformSpect? := some log_transform_spect }

/-- the shape-relevant configuration carried into `Spectrogram.make`:
`self.logTransformSpect` and `self.freqCutoffs` (cutoffs as rationals so
they can be compared against the frequency axis). -/
structure MakeConfig where
  logTransformSpect : Bool
  freqCutoffs : Option (ℚ × ℚ)

/-- the boolean mask entry `(freq_bins >= freq_cutoffs[0]) &
(freq_bins < freq_cutoffs[1])` (`audiofileIO.py` lines 278-279). -/
def inBand (lo hi f : ℚ) : Bool :=
  decide (lo ≤ f) && decide (f < hi)

/-- `np.nonzero((freq_bins >= lo) & (freq_bins < hi))[0]`: the indices of
the in-band bins, in increasing order. -/
def bandIndices (lo hi : ℚ) (freq_bins : List ℚ) : List ℕ :=
  (List.range freq_bins.length).filter (fun i => inBand lo hi (freq_bins.getD i 0))

/-- the `np.log10` step of `make` (lines 272-273): elementwise application
of a fixed function; `log10` is abstract because no claim depends on its
values, only on the shape being preserved. -/
def logStep {α : Type} (flag : Bool) (log10 : α → α) (spect : List (List α)) :
    List (List α) :=
  if flag then spect.map (fun row => row.map log10) else spect

/-- the band-selection step of `make` (lines 277-281):
`freq_bins = freq_bins[f_inds]; spect = spect[f_inds, :]`. -/
def bandStep {α : Type} (cutoffs : Option (ℚ × ℚ)) (spect : List (List α))
    (freq_bins : List ℚ) : List (List α) × List ℚ :=
  match cutoffs with
  | none => (spect, freq_bins)
  | some (lo, hi) =>
    let f_inds := bandIndices lo hi freq_bins
    (selectIdx spect f_inds, selectIdx freq_bins f_inds)

/-- the final flip of `make` (lines 284-285):
`spect = np.flipud(spect); freq_bins = np.flipud(freq_bins)`. -/
def flipStep {α : Type} (spect : List (List α)) (freq_bins : List ℚ) :
    List (List α) × List ℚ :=
  (spect.reverse, freq_bins.reverse)

/-- Embedding of the post-backend part of `Spectrogram.make`
(`audiofileIO.py` lines 272-286): the backend's spectrogram matrix (rows =
frequency bins, columns = time bins), frequency axis and time axis go
through the log-transform, band-selection and flip steps.  The matrix
entries are abstract (`α`) since every claim about this code concerns
shapes and the frequency axis only. -/
def makeSpect {α : Type} (cfg : MakeConfig) (log10 : α → α)
    (spect : List (List α)) (freq_bins time_bins : List ℚ) :
    List (List α) × List ℚ × List ℚ :=
  let s1 := logStep cfg.logTransformSpect log10 spect
  let p2 := bandStep cfg.freqCutoffs s1 freq_bins
  let p3 := flipStep p2.1 p2.2
  (p3.1, p3.2, time_bins)

/-- Modelled from the spec: the frequency axis returned by the scipy
backend (`scipy.signal.spectrogram`, an external collaborator of the
repository) for a one-sided spectrogram with segment length `nperseg` at
sampling rate `fs` — bin `k` sits at `k * fs / nperseg` Hz for
`k = 0 .. nperseg/2`.  The spec's regression property for the koumura
preset (112 retained bins) is stated against this grid at the koumura
data sampling rate of 32000 Hz. -/
def scipyFreqBins (fs : ℚ) (nperseg : ℕ) : List ℚ :=
  (List.range (nperseg / 2 + 1)).map (fun k => (k : ℚ) * fs / nperseg)

/-- the `try/except ValueError` wrapper around the backend call in
`Spectrogram.make` (`audiofileIO.py` lines 223, 266-270): a `ValueError`
whose message is exactly `window is longer than input signal` is replaced
by the dedicated `WindowError`; any other error is re-raised unchanged. -/
def makeTryExcept {α : Type} (backendResult : Except PyErr α) : Except PyErr α :=
  match backendResult with
  | .ok v => .ok v
  | .error e =>
    if e = .valueError "window is longer than input signal" then .error .windowError
    else .error e

/-- Modelled from the spec: the backend raises a `ValueError` with the
distinguishing message `window is longer than input signal` precisely when
the analysis window is longer than the input waveform it is given, and
succeeds otherwise. -/
def backendModel {α : Type} (windowLen sigLen : ℕ) (out : α) : Except PyErr α :=
  if sigLen < windowLen then .error (.valueError "window is longer than input signal")
  else .ok out

/-- length of the waveform after the optional `np.diff` pre-filter of
`make` (lines 220-221): `np.diff` shortens a nonempty signal by one
sample (and leaves an empty one empty). -/
def filteredLen (filterFunc : Option String) (n : ℕ) : ℕ :=
  if filterFunc = some "diff" then n - 1 else n

/-- Python's `int(round(w / 2))` for a nonnegative integer `w`: `w / 2` is
an exact binary float here, and Python (and numpy) round halves to the
nearest even integer. -/
def pyRoundHalf (w : ℤ) : ℤ :=
  if w % 2 = 0 then w / 2
  else if (w / 2) % 2 = 0 then w / 2 else w / 2 + 1

/-- Embedding of the fixed-width padding computation of
`Song.make_syl_spects` (`audiofileIO.py` lines 670-686), returning
`(left_width, right_width)`:

    width_diff = syl_spect_width_Hz - syl_duration_in_samples
    left_width = int(round(width_diff / 2))
    right_width = width_diff - left_width
    if left_width > onset:
        left_width = 0
        right_width = width_diff - offset
    elif offset + right_width > self.rawAudio.shape[-1]:
        right_width = self.rawAudio.shape[-1] - offset
        left_width = width_diff - right_width

`rawLen` is `self.rawAudio.shape[-1]`. -/
def sylPad (syl_spect_width_Hz onset offset rawLen : ℤ) : ℤ × ℤ :=
  let width_diff := syl_spect_width_Hz - (offset - onset)
  let left_width := pyRoundHalf width_diff
  let right_width := width_diff - left_width
  if left_width > onset then (0, width_diff - offset)
  else if offset + right_width > rawLen then
    (width_diff - (rawLen - offset), rawLen - offset)
  else (left_width, right_width)

/-- one row of the `zip(self.labels, self.onsets_Hz, self.offsets_Hz)`
iteration in `Song.make_syl_spects`. -/
structure SylInput where
  label : Char
  onset : ℤ
  offset : ℤ
  deriving DecidableEq, Repr

/-- the part of a `syllable` record that the error-handling claims are
about: its index and label, and its `spect` field, which is either a
backend result (`some`) or the `np.nan` sentinel assigned on
`WindowError` (`none`). -/
structure SylRecord (σ : Type) where
  index : ℕ
  label : Char
  spect : Option σ
  deriving DecidableEq, Repr

/-- the duration-versus-width test of `make_syl_spects`:
`'syl_spect_width_Hz' in locals() and syl_duration_in_samples >
syl_spect_width_Hz` where `syl_duration_in_samples = offset - onset`. -/
def durTooLong (width? : Option ℤ) (syl : SylInput) : Bool :=
  match width? with
  | some w => decide (w < syl.offset - syl.onset)
  | none => false

/-- Embedding of the per-syllable loop of `Song.make_syl_spects`
(`audiofileIO.py` lines 660-714).  `mk i s` abstracts
`spect_maker.make(syl_audio, self.sampFreq)` for the syllable at index
`i`; `width?` is `syl_spect_width_Hz` when a fixed width was given;
`mask` is `self.syls_to_use`.  The result is the list of appended
syllable records plus the number of `warnings.warn` calls issued for
`WindowError`s; a raised exception aborts the whole loop, exactly as in
the source.  Note that the source performs the duration-versus-width
check *before* testing `self.syls_to_use[ind]`. -/
def makeSylsFrom {σ : Type} (mk : ℕ → SylInput → Except PyErr σ)
    (width? : Option ℤ) (mask : ℕ → Bool) :
    ℕ → List SylInput → Except PyErr (List (SylRecord σ) × ℕ)
  | _, [] => .ok ([], 0)
  | n, syl :: rest =>
    -- `if 'syl_spect_width_Hz' in locals(): ... if syl_duration_in_samples
    --  > syl_spect_width_Hz: raise ValueError(...)` — before the mask test
    if durTooLong width? syl then
      .error (.valueError "syllable duration is greater than width specified for all syllable spectrograms")
    else if mask n then
      match mk n syl with
      | .error .windowError =>
        -- `except WindowError: warnings.warn(...); spect = np.nan`
        match makeSylsFrom mk width? mask (n + 1) rest with
        | .ok (rs, w) => .ok (⟨n, syl.label, none⟩ :: rs, w + 1)
        | .error e => .error e
      | .error e => .error e
      | .ok m =>
        match makeSylsFrom mk width? mask (n + 1) rest with
        | .ok (rs, w) => .ok (⟨n, syl.label, some m⟩ :: rs, w)
        | .error e => .error e
    else makeSylsFrom mk width? mask (n + 1) rest

/-- `true` when a backend outcome is one the loop survives: success, or
the `WindowError` that the `except` clause absorbs. -/
def isBenign {σ : Type} : Except PyErr σ → Bool
  | .ok _ => true
  | .error .windowError => true
  | .error (.valueError _) => false
  | .error (.typeError _) => false

/-- `true` when a syllable cannot trip the duration-versus-width check. -/
def durOK (width? : Option ℤ) (syl : SylInput) : Bool :=
  match width? with
  | some w => decide (syl.offset - syl.onset ≤ w)
  | none => true

/-- reference description of what the loop appends when nothing aborts it:
one record per selected syllable, `spect := none` exactly for the
`WindowError` ones, together with the number of warnings issued. -/
def expectedSyls {σ : Type} (mk : ℕ → SylInput → Except PyErr σ) (mask : ℕ → Bool) :
    ℕ → List SylInput → List (SylRecord σ) × ℕ
  | _, [] => ([], 0)
  | n, syl :: rest =>
    let p := expectedSyls mk mask (n + 1) rest
    if mask n then
      match mk n syl with
      | .ok m => (⟨n, syl.label, some m⟩ :: p.1, p.2)
      | .error _ => (⟨n, syl.label, none⟩ :: p.1, p.2 + 1)
    else p

/-! ## Helper lemmas about `selectIdx` -/

theorem selectIdx_map_succ {α : Type} (b : α) (ys : List α) (l : List ℕ) :
    selectIdx (b :: ys) (l.map Nat.succ) = selectIdx ys l := by
  unfold selectIdx
  rw [List.filterMap_map]
  congr 1

theorem selectIdx_append {α : Type} (xs : List α) (l₁ l₂ : List ℕ) :
    selectIdx xs (l₁ ++ l₂) = selectIdx xs l₁ ++ selectIdx xs l₂ := by
  simp [selectIdx]

/-- fancy indexing with the in-range positions where a predicate on the
entries of `xs` holds selects, from a parallel list `ys`, exactly the
entries paired with a satisfying entry of `xs`. -/
theorem selectIdx_range_filter {α β : Type} (p : α → Bool) (d : α) (xs : List α) :
    ∀ (ys : List β), xs.length = ys.length →
      selectIdx ys ((List.range xs.length).filter (fun i => p (xs.getD i d))) =
        ((xs.zip ys).filter (fun q => p q.1)).map Prod.snd := by
  induction xs with
  | nil =>
    intro ys h
    simp [selectIdx]
  | cons a xs ih =>
    intro ys h
    cases ys with
    | nil => simp at h
    | cons b ys =>
      have h' : xs.length = ys.length := by simpa using h
      have hmap : (List.range (a :: xs).length).filter (fun i => p ((a :: xs).getD i d)) =
          (if p a then [0] else []) ++
            ((List.range xs.length).filter (fun i => p (xs.getD i d))).map Nat.succ := by
        rw [List.length_cons, List.range_succ_eq_map, List.filter_cons]
        have hc : (List.map Nat.succ (List.range xs.length)).filter
              (fun i => p ((a :: xs).getD i d)) =
            ((List.range xs.length).filter (fun i => p (xs.getD i d))).map Nat.succ := by
          rw [List.filter_map]
          rfl
        rw [hc]
        by_cases hpa : p a <;> simp [hpa]
      rw [hmap, selectIdx_append, selectIdx_map_succ, ih ys h']
      by_cases hpa : p a
      · simp [hpa, selectIdx]
      · simp [hpa, selectIdx]

/-- special case of `selectIdx_range_filter`: indexing a list with the
positions where a predicate holds of its own entries is `List.filter`. -/
theorem selectIdx_range_filter_self {α : Type} (p : α → Bool) (d : α) (xs : List α) :
    selectIdx xs ((List.range xs.length).filter (fun i => p (xs.getD i d))) =
      xs.filter p := by
  rw [selectIdx_range_filter p d xs xs rfl]
  induction xs with
  | nil => simp
  | cons a xs ih =>
    rw [List.zip_cons_cons, List.filter_cons, List.filter_cons]
    by_cases hpa : p a <;> simp [hpa, ih]

theorem selectIdx_length {α : Type} (xs : List α) :
    ∀ idxs : List ℕ, (∀ i ∈ idxs, i < xs.length) →
      (selectIdx xs idxs).length = idxs.length := by
  intro idxs
  induction idxs with
  | nil => intro _; rfl
  | cons i t ih =>
    intro h
    have hi : i < xs.length := h i (by simp)
    have hg : xs.get? i = some (xs.get ⟨i, hi⟩) := List.get?_eq_get hi
    have ht := ih (fun j hj => h j (by simp [hj]))
    have hsel : selectIdx xs (i :: t) = xs.get ⟨i, hi⟩ :: selectIdx xs t := by
      simp only [selectIdx, List.filterMap_cons, hg]
    rw [hsel, List.length_cons, List.length_cons, ht]

theorem mem_selectIdx {α : Type} {xs : List α} {idxs : List ℕ} {a : α}
    (h : a ∈ selectIdx xs idxs) : a ∈ xs := by
  simp only [selectIdx, List.mem_filterMap] at h
  obtain ⟨i, _, hi⟩ := h
  exact List.get?_mem hi

theorem bandIndices_lt (lo hi : ℚ) (freq : List ℚ) :
    ∀ i ∈ bandIndices lo hi freq, i < freq.length := by
  intro i hi
  simp only [bandIndices, List.mem_filter, List.mem_range] at hi
  exact hi.1

/-- the one-step unfolding of the `make_syl_spects` loop on a `cons`
(holds definitionally). -/
theorem makeSylsFrom_cons {σ : Type} (mk : ℕ → SylInput → Except PyErr σ)
    (width? : Option ℤ) (mask : ℕ → Bool) (n : ℕ) (syl : SylInput)
    (rest : List SylInput) :
    makeSylsFrom mk width? mask n (syl :: rest) =
      if durTooLong width? syl then
        .error (.valueError
          "syllable duration is greater than width specified for all syllable spectrograms")
      else if mask n then
        match mk n syl with
        | .error .windowError =>
          match makeSylsFrom mk width? mask (n + 1) rest with
          | .ok (rs, w) => .ok (⟨n, syl.label, none⟩ :: rs, w + 1)
          | .error e => .error e
        | .error e => .error e
        | .ok m =>
          match makeSylsFrom mk width? mask (n + 1) rest with
          | .ok (rs, w) => .ok (⟨n, syl.label, some m⟩ :: rs, w)
          | .error e => .error e
      else makeSylsFrom mk width? mask (n + 1) rest := rfl

theorem bandStep_lengths {α : Type} (c : Option (ℚ × ℚ)) (spect : List (List α))
    (freq : List ℚ) (h : spect.length = freq.length) :
    (bandStep c spect freq).1.length = (bandStep c spect freq).2.length := by
  cases c with
  | none => simpa [bandStep] using h
  | some lohi =>
    obtain ⟨lo, hi⟩ := lohi
    simp only [bandStep]
    rw [selectIdx_length spect _ (fun i hh => by rw [h]; exact bandIndices_lt lo hi freq i hh),
        selectIdx_length freq _ (bandIndices_lt lo hi freq)]

theorem bandStep_row_mem {α : Type} (c : Option (ℚ × ℚ)) (spect : List (List α))
    (freq : List ℚ) : ∀ row ∈ (bandStep c spect freq).1, row ∈ spect := by
  cases c with
  | none =>
    intro row hr
    simpa [bandStep] using hr
  | some lohi =>
    obtain ⟨lo, hi⟩ := lohi
    intro row hr
    simp only [bandStep] at hr
    exact mem_selectIdx hr

/-! ## The claims -/

/-- **C2**: `Spectrogram.make` keeps exactly the frequency bins `f` with
`low ≤ f < high` (half-open test), recomputing matrix rows and frequency
axis together; and for the koumura preset (`nperseg` 512, band
`[1000, 8000)`, scipy backend, at the koumura sampling rate of 32000 Hz)
the frequency axis that `make` returns has exactly 112 entries. -/
theorem C2_band_selection :
    (∀ (lo hi : ℚ) (freq_bins : List ℚ) (spect : List (List ℚ)),
        freq_bins.length = spect.length →
        bandStep (some (lo, hi)) spect freq_bins =
          (((freq_bins.zip spect).filter (fun q => inBand lo hi q.1)).map Prod.snd,
            freq_bins.filter (inBand lo hi))) ∧
    (makeSpect { logTransformSpect := true, freqCutoffs := some (1000, 8000) } id
        (List.replicate 257 ([] : List ℚ)) (scipyFreqBins 32000 512) []).2.1.length = 112 := by
  constructor
  · intro lo hi freq spect h
    simp only [bandStep, bandIndices]
    rw [selectIdx_range_filter (inBand lo hi) 0 freq spect h,
        selectIdx_range_filter_self (inBand lo hi) 0 freq]
  · with_unfolding_all decide

/-- witness for C2: the half-open band `[1, 3)` applied to the concrete
frequency axis `[0, 2]` with matrix rows `[[5], [6]]`. -/
theorem C2_band_selection_witness :
    bandStep (some ((1 : ℚ), 3)) [[(5 : ℚ)], [6]] [0, 2] =
      ((([(0 : ℚ), 2].zip [[(5 : ℚ)], [6]]).filter (fun q => inBand 1 3 q.1)).map Prod.snd,
        [(0 : ℚ), 2].filter (inBand 1 3)) :=
  C2_band_selection.1 1 3 [0, 2] [[5], [6]] (by decide)

/-- **C3**: whenever the backend output is well-shaped (row count =
frequency-axis length, every row as long as the time axis), the same
invariants hold after the log step (i.e. before band-selection), after
band-selection, and after the final flip performed by
`Spectrogram.make`. -/
theorem C3_shape_invariants {α : Type} (cfg : MakeConfig) (log10 : α → α)
    (spect : List (List α)) (freq_bins time_bins : List ℚ)
    (hrows : spect.length = freq_bins.length)
    (hcols : ∀ row ∈ spect, row.length = time_bins.length) :
    ((logStep cfg.logTransformSpect log10 spect).length = freq_bins.length ∧
      ∀ row ∈ logStep cfg.logTransformSpect log10 spect,
        row.length = time_bins.length) ∧
    ((bandStep cfg.freqCutoffs (logStep cfg.logTransformSpect log10 spect)
          freq_bins).1.length =
        (bandStep cfg.freqCutoffs (logStep cfg.logTransformSpect log10 spect)
          freq_bins).2.length ∧
      ∀ row ∈ (bandStep cfg.freqCutoffs (logStep cfg.logTransformSpect log10 spect)
          freq_bins).1, row.length = time_bins.length) ∧
    ((makeSpect cfg log10 spect freq_bins time_bins).1.length =
        (makeSpect cfg log10 spect freq_bins time_bins).2.1.length ∧
      ∀ row ∈ (makeSpect cfg log10 spect freq_bins time_bins).1,
        row.length = (makeSpect cfg log10 spect freq_bins time_bins).2.2.length) := by
  have hlog_len : (logStep cfg.logTransformSpect log10 spect).length = freq_bins.length := by
    cases hflag : cfg.logTransformSpect <;> simp [logStep, hflag, hrows]
  have hlog_rows : ∀ row ∈ logStep cfg.logTransformSpect log10 spect,
      row.length = time_bins.length := by
    intro row hr
    cases hflag : cfg.logTransformSpect
    · rw [logStep, hflag] at hr
      simp at hr
      exact hcols row hr
    · rw [logStep, hflag] at hr
      simp only [if_true, List.mem_map] at hr
      obtain ⟨r, hrmem, hreq⟩ := hr
      rw [← hreq, List.length_map]
      exact hcols r hrmem
  have hband_len := bandStep_lengths cfg.freqCutoffs _ freq_bins hlog_len
  have hband_rows : ∀ row ∈ (bandStep cfg.freqCutoffs
      (logStep cfg.logTransformSpect log10 spect) freq_bins).1,
      row.length = time_bins.length :=
    fun row hr => hlog_rows row (bandStep_row_mem _ _ _ row hr)
  refine ⟨⟨hlog_len, hlog_rows⟩, ⟨hband_len, hband_rows⟩, ?_, ?_⟩
  · simp only [makeSpect, flipStep, List.length_reverse]
    exact hband_len
  · intro row hr
    simp only [makeSpect, flipStep, List.mem_reverse] at hr
    exact hband_rows row hr

/-- witness for C3 at a concrete well-shaped backend output. -/
theorem C3_shape_invariants_witness :
    ((logStep true id [[(5 : ℚ)], [6]]).length = [(0 : ℚ), 2].length ∧
      ∀ row ∈ logStep true id [[(5 : ℚ)], [6]], row.length = [(7 : ℚ)].length) ∧
    ((bandStep (some (1, 3)) (logStep true id [[(5 : ℚ)], [6]]) [0, 2]).1.length =
        (bandStep (some (1, 3)) (logStep true id [[(5 : ℚ)], [6]]) [0, 2]).2.length ∧
      ∀ row ∈ (bandStep (some (1, 3)) (logStep true id [[(5 : ℚ)], [6]]) [0, 2]).1,
        row.length = [(7 : ℚ)].length) ∧
    ((makeSpect ⟨true, some (1, 3)⟩ id [[(5 : ℚ)], [6]] [0, 2] [7]).1.length =
        (makeSpect ⟨true, some (1, 3)⟩ id [[(5 : ℚ)], [6]] [0, 2] [7]).2.1.length ∧
      ∀ row ∈ (makeSpect ⟨true, some (1, 3)⟩ id [[(5 : ℚ)], [6]] [0, 2] [7]).1,
        row.length = (makeSpect ⟨true, some (1, 3)⟩ id [[(5 : ℚ)], [6]] [0, 2] [7]).2.2.length) :=
  C3_shape_invariants ⟨true, some (1, 3)⟩ id [[5], [6]] [0, 2] [7] (by decide) (by decide)

/-- **C1** (code bug): with threshold 10, `min_syl_dur = 3/20` s and
`min_silent_dur = 1/4` s over time bins spaced 1/10 s apart:
* two pulses separated by a silent gap of 2/5 s (strictly greater than
  `min_silent_dur`) come back as ONE onset/offset pair `([1/10], [2/5])`
  — the claim requires two pairs;
* two pulses separated by a gap of 1/5 s (below `min_silent_dur`) come
  back as ZERO pairs — the claim requires one merged pair;
* even a single clean pulse of duration 2/5 s comes back as zero pairs,
  contradicting the docstring of `segment_song` itself
  (`So for syllable 1 of a song, its onset is onsets[0]`).
The cause: the source indexes *both* `onsets` and `offsets` with the
gap-index array `keep_these` instead of merging across dropped gaps. -/
theorem C1_segment_merge_bug :
    segment_song [0, 20, 20, 20, 0, 0, 0, 0, 20, 20, 20, 0]
        [0, 1/10, 2/10, 3/10, 4/10, 5/10, 6/10, 7/10, 8/10, 9/10, 1, 11/10]
        (some { threshold := 10, min_syl_dur := 3/20, min_silent_dur := 1/4 }) =
      ([1/10], [2/5]) ∧
    segment_song [0, 20, 20, 20, 0, 0, 20, 20, 20, 0]
        [0, 1/10, 2/10, 3/10, 4/10, 5/10, 6/10, 7/10, 8/10, 9/10]
        (some { threshold := 10, min_syl_dur := 3/20, min_silent_dur := 1/4 }) =
      ([], []) ∧
    segment_song [0, 20, 20, 20, 20, 0] [0, 1/10, 2/10, 3/10, 4/10, 5/10]
        (some { threshold := 10, min_syl_dur := 3/20, min_silent_dur := 1/4 }) =
      ([], []) := by
  refine ⟨?_, ?_, ?_⟩ <;> with_unfolding_all decide

/-- **C10**: calling `segment_song` with `segment_params = None` is the
same as passing `{threshold: 5000, min_syl_dur: 0.2, min_silent_dur:
0.02}`; in particular the operative defaults are 0.2 s and 0.02 s, not
the 0.02 s / 0.002 s stated in the docstring. -/
theorem C10_default_segment_params :
    (∀ (amp time_bins : List ℚ),
        segment_song amp time_bins none =
          segment_song amp time_bins
            (some { threshold := 5000, min_syl_dur := 0.2, min_silent_dur := 0.02 })) ∧
    defaultSegmentParams.threshold = 5000 ∧
    defaultSegmentParams.min_syl_dur = 0.2 ∧
    defaultSegmentParams.min_silent_dur = 0.02 ∧
    defaultSegmentParams.min_syl_dur ≠ 0.02 ∧
    defaultSegmentParams.min_silent_dur ≠ 0.002 := by
  refine ⟨fun amp time_bins => rfl, rfl, rfl, rfl, ?_, ?_⟩ <;> with_unfolding_all decide

/-- **C5** (code bug): constructing a `Spectrogram` with `ref=None`,
integer `nperseg` and `noverlap`, and `freq_cutoffs` left at its
documented default `None` always raises `TypeError` — the check
`type(freq_cutoffs) != list` is true for `None`.  The claim (and the
docstring, which says `Default is None.`) require construction to
succeed with no band selection. -/
theorem C5_freq_cutoffs_none_raises :
    spectrogramInit none (some 512) (some 480) none none none none true =
      .error (.typeError "type of freq_cutoffs must be list, but is NoneType") := by
  with_unfolding_all decide

/-- **C7** (code bug): fixed width `W = 4` samples, syllable at
`onset = 0`, `offset = 2` (duration `D = 2`), recording length 100.  The
boundary clamp fires (`left_width = round(2/2) = 1 > onset = 0`) and the
code computes `right_width = width_diff - offset = 0`, so
`(left, right) = (0, 0)`: the claim's `right_pad = W - D = 2` fails, and
the resulting slice `rawAudio[0:2]` has 2 samples instead of the fixed
width 4 promised by the method's own docstring. -/
theorem C7_clamp_right_pad_bug :
    sylPad 4 0 2 100 = (0, 0) ∧
    (sylPad 4 0 2 100).2 ≠ 4 - (2 - 0) ∧
    (2 + (sylPad 4 0 2 100).2) - (0 - (sylPad 4 0 2 100).1) ≠ 4 := by
  refine ⟨?_, ?_, ?_⟩ <;> with_unfolding_all decide

/-- **C4** counterexample: `Spectrogram(ref='koumura', nperseg=256)` ends
with `warned = true` but with *no* attribute assigned — in particular the
resulting state does not carry the explicitly supplied `nperseg = 256`,
refuting `the explicit parameters win`. -/
theorem C4_counterexample :
    spectrogramInit (some "koumura") (some 256) none none none none none true =
      .ok { warned := true } ∧
    ({ warned := true } : SpectAttrsState).nperseg? ≠ some 256 := by
  refine ⟨?_, ?_⟩ <;> with_unfolding_all decide

/-- **C4** amended: when a valid preset name and any of the five checked
explicit parameters (`nperseg`, `noverlap`, `freq_cutoffs`,
`filter_func`, `spect_func`) are both given, the warning is issued and
*neither* the explicit parameters nor the preset values are applied: all
spectrogram attributes are left unset (the preset assignments sit in the
`else` branch that the warning path skips). -/
theorem C4_preset_conflict_sets_nothing (r : String) (nperseg noverlap : Option ℤ)
    (freq_cutoffs : Option (List ℤ)) (window filter_func spect_func : Option String)
    (lts : Bool)
    (href : r = "tachibana" ∨ r = "koumura")
    (hconflict : (nperseg.isSome || noverlap.isSome || freq_cutoffs.isSome ||
        filter_func.isSome || spect_func.isSome) = true) :
    spectrogramInit (some r) nperseg noverlap freq_cutoffs window filter_func
      spect_func lts = .ok { warned := true } := by
  rcases href with h | h <;> subst h <;> simp [spectrogramInit, hconflict]

/-- witness for the amended C4. -/
theorem C4_preset_conflict_sets_nothing_witness :
    spectrogramInit (some "koumura") none (some 480) none none none none false =
      .ok { warned := true } :=
  C4_preset_conflict_sets_nothing "koumura" none (some 480) none none none none
    false (Or.inr rfl) (by decide)

/-- **C6**: the `try/except` in `Spectrogram.make` remaps exactly the
backend `ValueError` with message `window is longer than input signal`
to the dedicated `WindowError`; with the spec-modelled backend this
happens precisely when the window is longer than the (possibly
diff-filtered) waveform, and every other backend error propagates
unchanged. -/
theorem C6_window_error_remap :
    (∀ (filter_func : Option String) (nperseg n : ℕ)
        (out : List (List ℚ) × List ℚ × List ℚ),
        (makeTryExcept (backendModel nperseg (filteredLen filter_func n) out) =
          .error .windowError ↔ filteredLen filter_func n < nperseg)) ∧
    (∀ e : PyErr, e ≠ .valueError "window is longer than input signal" →
        makeTryExcept (.error e : Except PyErr (List (List ℚ) × List ℚ × List ℚ)) =
          .error e) := by
  constructor
  · intro ff nperseg n out
    by_cases h : filteredLen ff n < nperseg
    · simp [backendModel, makeTryExcept, h]
    · simp [backendModel, makeTryExcept, h]
  · intro e he
    simp [makeTryExcept, he]

/-- witness for C6: a diff-filtered 100-sample signal against a
512-sample window is remapped to `WindowError`; an unrelated `TypeError`
passes through unchanged. -/
theorem C6_window_error_remap_witness :
    makeTryExcept (backendModel 512 (filteredLen (some "diff") 100)
        (([], [], []) : List (List ℚ) × List ℚ × List ℚ)) =
      .error .windowError ∧
    makeTryExcept
        (.error (.typeError "boom") : Except PyErr (List (List ℚ) × List ℚ × List ℚ)) =
      .error (.typeError "boom") :=
  ⟨(C6_window_error_remap.1 (some "diff") 512 100
      (([], [], []) : List (List ℚ) × List ℚ × List ℚ)).mpr (by decide),
   C6_window_error_remap.2 (.typeError "boom") (by decide)⟩

/-- **C8**: when every per-syllable backend outcome is benign (success or
`WindowError`) and no duration check can fire, the loop of
`make_syl_spects` never aborts: it returns one record per selected
syllable — with the `np.nan` sentinel (`spect = none`, distinguishable
from every real matrix `some m`) exactly for the `WindowError` ones —
and one warning per `WindowError`. -/
theorem C8_window_error_graceful {σ : Type} (mk : ℕ → SylInput → Except PyErr σ)
    (width? : Option ℤ) (mask : ℕ → Bool) (n : ℕ) (syls : List SylInput)
    (hben : ∀ p ∈ syls.enumFrom n, isBenign (mk p.1 p.2) = true)
    (hdur : ∀ syl ∈ syls, durOK width? syl = true) :
    makeSylsFrom mk width? mask n syls = .ok (expectedSyls mk mask n syls) := by
  induction syls generalizing n with
  | nil => rfl
  | cons syl rest ih =>
    have hdur_head : durOK width? syl = true := hdur syl (by simp)
    have hben_head : isBenign (mk n syl) = true := hben (n, syl) (by simp [List.enumFrom])
    have ih' := ih (n + 1) (fun p hp => hben p (by simp [List.enumFrom, hp]))
      (fun s hs => hdur s (by simp [hs]))
    have hcond : durTooLong width? syl = false := by
      cases width? with
      | none => rfl
      | some w =>
        simp only [durOK, decide_eq_true_eq] at hdur_head
        exact decide_eq_false (not_lt.mpr hdur_head)
    rw [makeSylsFrom_cons, hcond]
    cases hmask : mask n with
    | false => simp [expectedSyls, hmask, ih']
    | true =>
      cases hmk : mk n syl with
      | ok m => simp [expectedSyls, hmask, hmk, ih']
      | error e =>
        cases e with
        | windowError => simp [expectedSyls, hmask, hmk, ih']
        | valueError msg =>
          rw [hmk] at hben_head
          simp [isBenign] at hben_head
        | typeError msg =>
          rw [hmk] at hben_head
          simp [isBenign] at hben_head

/-- witness for C8: three selected syllables, the middle one hitting
`WindowError`: the batch completes with the sentinel on record 1 and one
warning. -/
theorem C8_window_error_graceful_witness :
    makeSylsFrom
        (fun i _ => if i = 1 then (.error .windowError : Except PyErr Unit) else .ok ())
        none (fun _ => true) 0 [⟨'a', 0, 5⟩, ⟨'b', 6, 9⟩, ⟨'c', 12, 20⟩] =
      .ok ([⟨0, 'a', some ()⟩, ⟨1, 'b', none⟩, ⟨2, 'c', some ()⟩], 1) := by
  rw [C8_window_error_graceful
    (fun i _ => if i = 1 then (.error .windowError : Except PyErr Unit) else .ok ())
    none (fun _ => true) 0 [⟨'a', 0, 5⟩, ⟨'b', 6, 9⟩, ⟨'c', 12, 20⟩]
    (by decide) (by decide)]
  decide

/-- **C9** counterexample: fixed width 10 samples, mask selecting only
syllable 0, and an *unselected* syllable 1 of duration 20 samples: the
call fails with the duration `ValueError`, refuting `a syllable whose
duration exceeds the fixed width but which is not selected never causes
the call to fail`. -/
theorem C9_counterexample :
    makeSylsFrom (fun _ _ => (.ok () : Except PyErr Unit)) (some 10)
        (fun i => decide (i = 0)) 0 [⟨'a', 0, 5⟩, ⟨'b', 30, 50⟩] =
      .error (.valueError
        "syllable duration is greater than width specified for all syllable spectrograms") := by
  decide

/-- **C9** amended: the duration-versus-width check runs for *every*
syllable in iteration order before the selection mask is consulted: if
any syllable's duration exceeds the fixed width — selected or not — and
the backend outcomes are benign, the whole call fails with the duration
`ValueError`. -/
theorem C9_duration_check_ignores_mask {σ : Type} (mk : ℕ → SylInput → Except PyErr σ)
    (w : ℤ) (mask : ℕ → Bool) (n : ℕ) (syls : List SylInput)
    (hben : ∀ p ∈ syls.enumFrom n, isBenign (mk p.1 p.2) = true)
    (hlong : ∃ syl ∈ syls, w < syl.offset - syl.onset) :
    makeSylsFrom mk (some w) mask n syls =
      .error (.valueError
        "syllable duration is greater than width specified for all syllable spectrograms") := by
  induction syls generalizing n with
  | nil => simp at hlong
  | cons syl rest ih =>
    have hben_head : isBenign (mk n syl) = true := hben (n, syl) (by simp [List.enumFrom])
    by_cases hd : w < syl.offset - syl.onset
    · rw [makeSylsFrom_cons]
      simp [durTooLong, hd]
    · have hrest : ∃ s ∈ rest, w < s.offset - s.onset := by
        rcases hlong with ⟨s, hs, hws⟩
        rcases List.mem_cons.mp hs with h | h
        · exact absurd (h ▸ hws) hd
        · exact ⟨s, h, hws⟩
      have ih' := ih (n + 1) (fun p hp => hben p (by simp [List.enumFrom, hp])) hrest
      rw [makeSylsFrom_cons]
      cases hmask : mask n with
      | false => simp [hd, hmask, ih']
      | true =>
        cases hmk : mk n syl with
        | ok m => simp [hd, hmask, hmk, ih']
        | error e =>
          cases e with
          | windowError => simp [hd, hmask, hmk, ih']
          | valueError msg =>
            rw [hmk] at hben_head
            simp [isBenign] at hben_head
          | typeError msg =>
            rw [hmk] at hben_head
            simp [isBenign] at hben_head

/-- witness for the amended C9. -/
theorem C9_duration_check_ignores_mask_witness :
    makeSylsFrom (fun _ _ => (.ok () : Except PyErr Unit)) (some 7)
        (fun _ => false) 0 [⟨'x', 2, 4⟩, ⟨'y', 10, 40⟩] =
      .error (.valueError
        "syllable duration is greater than width specified for all syllable spectrograms") :=
  C9_duration_check_ignores_mask (fun _ _ => (.ok () : Except PyErr Unit)) 7
    (fun _ => false) 0 [⟨'x', 2, 4⟩, ⟨'y', 10, 40⟩] (by decide) (by decide)
